import Mathlib

/-!
Verification of the SQL construction / validation / execution layer of the
CITS5206 capstone backend (`app/services/sql_service.py`), together with the
taxonomy-resolution entry points (`app/services/routing_service.py`,
`app/services/geo_reasoning_service.py`, `app/api/query.py`).

Python strings are modelled as Lean `String`s; the character-level scans that
the source performs through `re` are written out explicitly on `List Char`.
Database access is modelled by passing the store as an explicit function.
-/

namespace Capstone

/-- Whitespace class of Python `str.strip` / regex `\s` restricted to ASCII:
space, tab, newline, carriage return, vertical tab, form feed. -/
def isPySpace (c : Char) : Bool :=
  c = ' ' || c = '\t' || c = '\n' || c = '\r' || c = Char.ofNat 11 || c = Char.ofNat 12

/-- Python `str.strip()` on the character list. -/
def pyStrip (l : List Char) : List Char :=
  ((l.dropWhile isPySpace).reverse.dropWhile isPySpace).reverse

/-- Python `str.upper()` (ASCII letters). -/
def pyUpper (l : List Char) : List Char :=
  l.map Char.toUpper

/-- Python `needle in hay` substring test. -/
def containsSub (hay needle : List Char) : Bool :=
  match hay with
  | [] => needle.isEmpty
  | c :: t => needle.isPrefixOf (c :: t) || containsSub t needle

/-- Decimal digit character for a value below ten. -/
def digitChar (d : Nat) : Char :=
  Char.ofNat (48 + d)

/-- Decimal digits of a natural number, fuel-driven so that the kernel can
evaluate it; correct whenever the value is below the fuel. -/
def natReprAux : Nat → Nat → List Char
  | 0, _ => []
  | fuel + 1, n =>
    if n < 10 then [digitChar n]
    else natReprAux fuel (n / 10) ++ [digitChar (n % 10)]

/-- Decimal representation as a string (Python `str(n)` / f-string interpolation). -/
def natRepr (n : Nat) : String :=
  ⟨natReprAux (n + 1) n⟩

/-- Value of a list of decimal digit characters (Python `int(...)` on a digit run). -/
def digitsToNat (l : List Char) : Nat :=
  l.foldl (fun a c => a * 10 + (c.toNat - 48)) 0

/-- Scan for regex `;\s*(DROP|DELETE|UPDATE|INSERT|ALTER|CREATE|GRANT|REVOKE)`. -/
def semiDanger (l : List Char) : Bool :=
  match l with
  | [] => false
  | c :: t =>
    (c = ';' && (["DROP", "DELETE", "UPDATE", "INSERT", "ALTER", "CREATE", "GRANT",
        "REVOKE"].any (fun w => w.data.isPrefixOf (t.dropWhile isPySpace))))
      || semiDanger t

/-- Scan for regex `UNION\s+SELECT`. -/
def unionSelect (l : List Char) : Bool :=
  match l with
  | [] => false
  | c :: t =>
    (("UNION".data.isPrefixOf (c :: t))
        && !(((c :: t).drop 5).takeWhile isPySpace).isEmpty
        && "SELECT".data.isPrefixOf (((c :: t).drop 5).dropWhile isPySpace))
      || unionSelect t

/-- Scan for regex `/\*.*?\*/` (DOTALL): an opening marker with a closing marker
somewhere after it. -/
def blockComment (l : List Char) : Bool :=
  match l with
  | [] => false
  | c :: t =>
    (("/*".data.isPrefixOf (c :: t)) && containsSub ((c :: t).drop 2) "*/".data)
      || blockComment t

/-- Scan for regex `SELECT\s+\*`. -/
def selectStar (l : List Char) : Bool :=
  match l with
  | [] => false
  | c :: t =>
    (("SELECT".data.isPrefixOf (c :: t))
        && !(((c :: t).drop 6).takeWhile isPySpace).isEmpty
        && (((c :: t).drop 6).dropWhile isPySpace).head? = some '*')
      || selectStar t

/-- Leftmost match of regex `LIMIT\s+(\d+)`: the captured digit run, as a number. -/
def firstLimitLit (l : List Char) : Option Nat :=
  match l with
  | [] => none
  | c :: t =>
    if "LIMIT".data.isPrefixOf (c :: t)
        && !(((c :: t).drop 5).takeWhile isPySpace).isEmpty
        && !((((c :: t).drop 5).dropWhile isPySpace).takeWhile Char.isDigit).isEmpty then
      some (digitsToNat ((((c :: t).drop 5).dropWhile isPySpace).takeWhile Char.isDigit))
    else firstLimitLit t

/-- Result record of `validate_sql_syntax` (`SqlValidationResult` in the source). -/
structure SqlValidationResult where
  is_valid : Bool
  error_message : Option String := none
  warnings : List String := []
  deriving Repr, DecidableEq

/-- Configurable limits of `SQLService` (`_max_query_length`, `_max_limit`). -/
structure Limits where
  maxQueryLength : Nat
  maxLimit : Nat
  deriving Repr, DecidableEq

/-- Constructor defaults of `SQLService.__init__`. -/
def svcDefault : Limits := ⟨10000, 10000⟩

/-- Source method `SQLService.set_limits`. -/
def setLimits (maxQueryLength maxLimit : Nat) : Limits :=
  ⟨maxQueryLength, maxLimit⟩

/-- Banned-operation list of `validate_sql_syntax` (`dangerous_keywords`). -/
def dangerousKeywords : List String :=
  ["DROP", "DELETE", "UPDATE", "INSERT", "ALTER", "CREATE", "TRUNCATE", "GRANT", "REVOKE"]

/-- Banned functions of `validate_sql_syntax` (`dangerous_funcs`). -/
def dangerousFuncs : List String :=
  ["LOAD_FILE", "INTO OUTFILE", "INTO DUMPFILE"]

/-- Message of the banned-operation branch. -/
def msgDangerousOps : String := "Dangerous SQL operations are not allowed"

/-- Source method `SQLService.validate_sql_syntax`, branch for branch. -/
def validateSql (svc : Limits) (sql : String) : SqlValidationResult :=
  let d := sql.data
  if (pyStrip d).isEmpty then
    ⟨false, some "SQL query cannot be empty", []⟩
  else if d.length > svc.maxQueryLength then
    ⟨false, some ("SQL query too long (max " ++ natRepr svc.maxQueryLength ++ " characters)"), []⟩
  else
    let clean := pyUpper (pyStrip d)
    if dangerousKeywords.any (fun k => containsSub clean k.data) then
      ⟨false, some msgDangerousOps, []⟩
    else if semiDanger clean || unionSelect clean || containsSub clean "--".data
        || blockComment clean || containsSub clean "XP_CMDSHELL".data
        || containsSub clean "SP_EXECUTESQL".data then
      ⟨false, some "Potential SQL injection detected", []⟩
    else if !("SELECT".data.isPrefixOf clean) then
      ⟨false, some "Only SELECT statements are allowed", []⟩
    else if d.count '(' ≠ d.count ')' then
      ⟨false, some "Unbalanced parentheses in SQL", []⟩
    else if d.count (Char.ofNat 39) % 2 ≠ 0 then
      ⟨false, some "Unbalanced single quotes in SQL", []⟩
    else
      let warnings :=
        if selectStar clean then
          ["SELECT * usage detected - consider specifying explicit columns"]
        else []
      match dangerousFuncs.find? (fun f => containsSub clean f.data) with
      | some f => ⟨false, some ("Dangerous function " ++ f ++ " not allowed"), []⟩
      | none =>
        match firstLimitLit clean with
        | some v =>
          if v > svc.maxLimit then
            ⟨false, some ("LIMIT value " ++ natRepr v ++ " exceeds maximum "
              ++ natRepr svc.maxLimit), []⟩
          else ⟨true, none, warnings⟩
        | none => ⟨true, none, warnings⟩

/-- Python `sep.join(xs)`. -/
def joinSep (sep : String) : List String → String
  | [] => ""
  | [x] => x
  | x :: y :: rest => x ++ sep ++ joinSep sep (y :: rest)

/-- Word characters kept by `_sanitize_ident` (regex class `[a-zA-Z0-9_]`). -/
def isWordChar (c : Char) : Bool :=
  (('a' ≤ c && c ≤ 'z') || ('A' ≤ c && c ≤ 'Z') || ('0' ≤ c && c ≤ '9') || c = '_')

/-- Source method `SQLService._sanitize_ident`: delete every character outside
`[a-zA-Z0-9_]` and fail (raise `ValueError`) only when nothing remains. -/
def sanitizeIdent (name : String) : Except String String :=
  if (name.data.filter isWordChar).isEmpty then Except.error "invalid identifier"
  else Except.ok ⟨name.data.filter isWordChar⟩

/-- Single-quote character, used by Python `repr`-style messages. -/
def sq : String := ⟨[Char.ofNat 39]⟩

/-- Message of `validate_table_and_columns` when the column set is empty. -/
def tableNotFoundMsg (tbl : String) : String :=
  "Table " ++ sq ++ tbl ++ sq ++ " not found or has no columns"

/-- Message of `validate_table_and_columns` for unknown columns (Python
`repr` of the offending list). -/
def unknownColumnsMsg (bad : List String) : String :=
  "Unknown columns: [" ++ joinSep ", " (bad.map (fun c => sq ++ c ++ sq)) ++ "]"

/-- Parameter values bound into a statement (Python objects in `params`). -/
inductive Val where
  | vInt : Int → Val
  | vStr : String → Val
  deriving Repr, DecidableEq

/-- The columns cache `_columns_cache` (column sets kept as lists, used only
through membership and emptiness, matching the Python set usage). -/
abbrev Cache := List (String × List String)

/-- Cache lookup (`tbl in self._columns_cache`). -/
def lookupCache (cache : Cache) (k : String) : Option (List String) :=
  (cache.find? (fun e => e.1 = k)).map (fun e => e.2)

/-- Source method `SQLService.get_table_columns` over an explicit store
(`information_schema` introspection): sanitize, consult the cache, otherwise
introspect; a store failure is caught, logged, and turned into the EMPTY
column set without caching. Returns the result and the updated cache. -/
def getTableColumns (store : String → Except String (List String)) (cache : Cache)
    (table : String) : Except String (List String × Cache) :=
  match sanitizeIdent table with
  | Except.error e => Except.error e
  | Except.ok tbl =>
    match lookupCache cache tbl with
    | some cols => Except.ok (cols, cache)
    | none =>
      match store tbl with
      | Except.ok cols => Except.ok (cols, cache ++ [(tbl, cols)])
      | Except.error _ => Except.ok ([], cache)

/-- Source method `SQLService.validate_table_and_columns`: a `ValueError` from
identifier sanitisation is caught and reported; an empty column set is
reported as table not found; otherwise unknown columns are listed. -/
def validateTableAndColumns (store : String → Except String (List String)) (cache : Cache)
    (table : String) (columns : List String) : SqlValidationResult :=
  match sanitizeIdent table with
  | Except.error e => ⟨false, some e, []⟩
  | Except.ok tbl =>
    match getTableColumns store cache tbl with
    | Except.error e => ⟨false, some e, []⟩
    | Except.ok (allowed, _) =>
      if allowed.isEmpty then ⟨false, some (tableNotFoundMsg tbl), []⟩
      else
        let bad := columns.filter (fun c => !allowed.contains c)
        if !bad.isEmpty then ⟨false, some (unknownColumnsMsg bad), []⟩
        else ⟨true, none, []⟩

/-- Placeholder name `f"p{i}"` of the filter loop in `build_select_sql`. -/
def phName (i : Nat) : String :=
  "p" ++ natRepr i

/-- Filter loop of `build_select_sql` (`for i, (k, v) in enumerate(filters.items())`):
sanitize each key, require it among the allowed columns, and emit one
`"key" = :pi` clause plus one bound parameter per entry. -/
def buildFilters (allowed : List String) (i : Nat) :
    List (String × Val) → Except String (List String × List (String × Val))
  | [] => Except.ok ([], [])
  | (k, v) :: rest =>
    match sanitizeIdent k with
    | Except.error e => Except.error e
    | Except.ok key =>
      if !allowed.contains key then Except.error ("Unknown filter column: " ++ key)
      else
        match buildFilters allowed (i + 1) rest with
        | Except.error e => Except.error e
        | Except.ok (parts, ps) =>
          Except.ok (("\"" ++ key ++ "\" = :" ++ phName i) :: parts, (phName i, v) :: ps)

/-- Source method `SQLService.build_select_sql`: validate table and columns,
then build `SELECT <cols> FROM "<tbl>"[ WHERE ...] LIMIT :_limit OFFSET :_offset;`
with one named parameter per filter plus `_limit` and `_offset`. -/
def buildSelectSql (store : String → Except String (List String)) (cache : Cache)
    (table : String) (columns : List String) (filters : List (String × Val))
    (limit offset : Int) : Except String (String × List (String × Val)) :=
  let validation := validateTableAndColumns store cache table columns
  if !validation.is_valid then Except.error (validation.error_message.getD "")
  else
    match sanitizeIdent table with
    | Except.error e => Except.error e
    | Except.ok tbl =>
      match getTableColumns store cache tbl with
      | Except.error e => Except.error e
      | Except.ok (allowed, _) =>
        let colsSql := joinSep ", " (columns.map (fun c => "\"" ++ c ++ "\""))
        match buildFilters allowed 0 filters with
        | Except.error e => Except.error e
        | Except.ok (whereParts, params) =>
          let whereSql :=
            if whereParts.isEmpty then ""
            else " WHERE " ++ joinSep " AND " whereParts
          Except.ok ("SELECT " ++ colsSql ++ " FROM \"" ++ tbl ++ "\"" ++ whereSql
              ++ " LIMIT :_limit OFFSET :_offset;",
            params ++ [("_limit", Val.vInt limit), ("_offset", Val.vInt offset)])

/-- Result record of `execute_sql` (`QueryResult` in the source; the timing and
meta fields are omitted as wall-clock data). -/
structure QueryResultM where
  success : Bool
  data : List (List (String × Val)) := []
  error : Option String := none
  deriving Repr, DecidableEq

/-- Source method `SQLService.execute_sql` over an explicit store, also
returning the trace of statements submitted to the store: validate first and
return without touching the store on rejection; otherwise submit the statement
exactly once and wrap the outcome — a store failure is caught and surfaced as
an unsuccessful result, with no rewrite and no retry. -/
def executeSql (svc : Limits) (store : String → Except String (List (List (String × Val))))
    (sql : String) : QueryResultM × List String :=
  let validation := validateSql svc sql
  if !validation.is_valid then (⟨false, [], validation.error_message⟩, [])
  else
    match store sql with
    | Except.ok rows => (⟨true, rows, none⟩, [sql])
    | Except.error e => (⟨false, [], some e⟩, [sql])

/-- Shape of `resu` as consumed by the `/query` endpoint
(`run_sql` result: `ok`, `results.columns`, `results.rows`, `error`). -/
structure RunResult where
  ok : Bool
  columns : List String := []
  rows : List (List Val) := []
  error : Option String := none
  deriving Repr, DecidableEq

/-- Success envelope `QueryOut` of `app/api/query.py`. -/
structure QueryOut where
  sql : String
  results : List (List (String × Val))
  reasoning : List String
  model_used : String
  is_fallback : Bool
  deriving Repr, DecidableEq

/-- Response stage of the `/query` endpoint (`geo_reason`, lines 100-124 of
`app/api/query.py`) given the execution outcome: a failed execution becomes a
500 error response, a successful one becomes a `QueryOut` with
`is_fallback = False` hard-coded; no retry of any kind occurs here. -/
def geoReasonRespond (sqlWithParams : String) (reasons : List String) (resu : RunResult) :
    Except (Nat × String) (Nat × QueryOut) :=
  if !resu.ok then Except.error (500, (resu.error.getD "None"))
  else
    Except.ok (200,
      ⟨sqlWithParams, resu.rows.map (fun r => resu.columns.zip r), reasons, "gpt-5-nano", false⟩)

/-- JSON values as decoded by `json.loads` (the fragment the routing layer
inspects). -/
inductive Json where
  | jStr : String → Json
  | jInt : Int → Json
  | jArr : List Json → Json
  | jObj : List (String × Json) → Json
  | jNull : Json

/-- Source method `GeoReasoningService.parse_l1_response` applied to an already
decoded JSON object: the ONLY validation is that the keys `l1_selected` and
`reasons` are present; the selected ids themselves are not inspected. -/
def parseL1Response (resp : List (String × Json)) : Except String (List (String × Json)) :=
  if resp.any (fun kv => kv.1 = "l1_selected") && resp.any (fun kv => kv.1 = "reasons") then
    Except.ok resp
  else Except.error "Malformed L1 response"

/-- Python `int(...)` on a decoded JSON scalar, as used by
`[int(i["id"]) for i in d1.get("l1_selected", [])]` in `route`. -/
def pyInt : Json → Except String Int
  | Json.jInt n => Except.ok n
  | Json.jStr s =>
    match s.data with
    | [] => Except.error "invalid literal for int"
    | l =>
      if l.all Char.isDigit then Except.ok (Int.ofNat (digitsToNat l))
      else Except.error "invalid literal for int"
  | _ => Except.error "int conversion failed"

/-- Source method `GeoReasoningService.parse_l2_response`: identical shape for
the CARD stage — the ONLY validation is that the keys `l2_selected` and
`reasons` are present; the selected ids themselves are not inspected. -/
def parseL2Response (resp : List (String × Json)) : Except String (List (String × Json)) :=
  if resp.any (fun kv => kv.1 = "l2_selected") && resp.any (fun kv => kv.1 = "reasons") then
    Except.ok resp
  else Except.error "Malformed L2 response"

/-- Selected-id extraction of `route` (`routing_service.py`), shared by steps 1
and 2: `d.get(key, [])` with key `l1_selected` or `l2_selected`, then
`int(i["id"])` per item, with no check of the ids against the candidate list
that was presented to the classifier. -/
def extractSelectedIds (d : List (String × Json)) (key : String) : Except String (List Int) :=
  match (d.find? (fun kv => kv.1 = key)).map (fun kv => kv.2) with
  | none => Except.ok []
  | some (Json.jArr items) =>
    items.mapM (fun it =>
      match it with
      | Json.jObj kvs =>
        match (kvs.find? (fun kv => kv.1 = "id")).map (fun kv => kv.2) with
        | some v => pyInt v
        | none => Except.error "KeyError: id"
      | _ => Except.error "selection item is not an object")
  | some _ => Except.error "selection is not a list"

/-- Steps 1 to 2 of `route` (CATEGORY stage consuming its response): extract
the selected L1 ids from the classifier response and fetch the L2 cards for
each id (`get_l2_cards_by_l1`), whatever the id is — out-of-range ids simply
contribute whatever the catalog returns for them. -/
def routeStep1Then2 (catalog : Int → List String) (d1 : List (String × Json)) :
    Except String (List String) :=
  match extractSelectedIds d1 "l1_selected" with
  | Except.error e => Except.error e
  | Except.ok ids => Except.ok (ids.flatMap catalog)

/-- Steps 2 to 3 of `route` (CARD stage consuming its response): extract the
selected L2 ids from the classifier response and fetch the L3 tables for each
id (`get_l3_tables_by_l2`), again with no membership validation. -/
def routeStep2Then3 (catalog : Int → List String) (d2 : List (String × Json)) :
    Except String (List String) :=
  match extractSelectedIds d2 "l2_selected" with
  | Except.error e => Except.error e
  | Except.ok ids => Except.ok (ids.flatMap catalog)

/-- Store fixture: the explicit-column statement fails at the store while its
wildcard rewrite would succeed. -/
def demoStore : String → Except String (List (List (String × Val))) :=
  fun s =>
    if s = "SELECT \"bad_col\" FROM \"t\" LIMIT 5" then Except.error "column does not exist"
    else if s = "SELECT * FROM \"t\" LIMIT 5" then Except.ok [[("name", Val.vStr "x")]]
    else Except.error "unexpected statement"

/-! Supporting lemmas. -/

theorem str_ext {s t : String} (h : s.data = t.data) : s = t := by
  cases s; cases t; exact congrArg String.mk h

theorem str_mk_data (s : String) : (⟨s.data⟩ : String) = s := by
  cases s; rfl

theorem digitChar_toNat {d : Nat} (h : d < 10) : (digitChar d).toNat = 48 + d := by
  interval_cases d <;> decide

theorem digitChar_isDigit {d : Nat} (h : d < 10) : (digitChar d).isDigit = true := by
  interval_cases d <;> decide

theorem digitsToNat_append (a : List Char) (c : Char) :
    digitsToNat (a ++ [c]) = 10 * digitsToNat a + (c.toNat - 48) := by
  simp [digitsToNat, List.foldl_append, Nat.mul_comm]

theorem digitsToNat_natReprAux : ∀ fuel n, n < fuel → digitsToNat (natReprAux fuel n) = n := by
  intro fuel
  induction fuel with
  | zero => omega
  | succ fuel ih =>
    intro n h
    by_cases h10 : n < 10
    · have hv := digitChar_toNat h10
      simp [natReprAux, h10, digitsToNat, hv]
    · have hdiv : n / 10 < n := Nat.div_lt_self (by omega) (by omega)
      have hd : n / 10 < fuel := by omega
      have hm : n % 10 < 10 := Nat.mod_lt _ (by omega)
      simp only [natReprAux, h10, if_false]
      rw [digitsToNat_append, ih _ hd, digitChar_toNat hm]
      omega

theorem natRepr_inj {a b : Nat} (h : natRepr a = natRepr b) : a = b := by
  have hd : natReprAux (a + 1) a = natReprAux (b + 1) b := congrArg String.data h
  have ha := digitsToNat_natReprAux (a + 1) a (by omega)
  have hb := digitsToNat_natReprAux (b + 1) b (by omega)
  rw [← ha, ← hb, hd]

theorem natReprAux_digits : ∀ fuel n c, c ∈ natReprAux fuel n → c.isDigit = true := by
  intro fuel
  induction fuel with
  | zero => intro n c hc; simp [natReprAux] at hc
  | succ fuel ih =>
    intro n c hc
    by_cases h10 : n < 10
    · simp [natReprAux, h10] at hc
      exact hc ▸ digitChar_isDigit h10
    · simp only [natReprAux, h10, if_false, List.mem_append, List.mem_singleton] at hc
      rcases hc with hc | hc
      · exact ih _ _ hc
      · exact hc ▸ digitChar_isDigit (Nat.mod_lt _ (by omega))

theorem natRepr_digits {n : Nat} {c : Char} (hc : c ∈ (natRepr n).data) : c.isDigit = true :=
  natReprAux_digits _ _ _ hc

theorem phName_inj {a b : Nat} (h : phName a = phName b) : a = b := by
  have hd : 'p' :: (natRepr a).data = 'p' :: (natRepr b).data := congrArg String.data h
  simp only [List.cons.injEq, true_and] at hd
  exact natRepr_inj (str_ext hd)

theorem phName_data (i : Nat) : (phName i).data = 'p' :: (natRepr i).data := rfl

theorem phName_no_semi (i : Nat) : ';' ∉ (phName i).data := by
  intro hc
  rw [phName_data] at hc
  rcases List.mem_cons.mp hc with hc | hc
  · exact absurd hc (by decide)
  · exact absurd (natRepr_digits hc) (by decide)

theorem phName_head (i : Nat) : (phName i).data.head? = some 'p' := rfl

theorem joinSep_mem {sep : String} {c : Char} :
    ∀ xs : List String, c ∈ (joinSep sep xs).data → c ∈ sep.data ∨ ∃ x ∈ xs, c ∈ x.data := by
  intro xs
  induction xs with
  | nil => intro h; simp [joinSep] at h
  | cons x rest ih =>
    cases rest with
    | nil => intro h; exact Or.inr ⟨x, by simp, h⟩
    | cons y t =>
      intro h
      have h2 : c ∈ x.data ++ sep.data ++ (joinSep sep (y :: t)).data := h
      rcases List.mem_append.mp h2 with h3 | h3
      · rcases List.mem_append.mp h3 with h4 | h4
        · exact Or.inr ⟨x, by simp, h4⟩
        · exact Or.inl h4
      · rcases ih h3 with h4 | ⟨z, hz, hcz⟩
        · exact Or.inl h4
        · exact Or.inr ⟨z, by simp [hz], hcz⟩

theorem sanitizeIdent_ok_data {name tbl : String} (h : sanitizeIdent name = Except.ok tbl) :
    tbl.data = name.data.filter isWordChar := by
  unfold sanitizeIdent at h
  split at h
  · exact absurd h (by simp)
  · simpa using (congrArg String.data (Except.ok.inj h)).symm

theorem sanitizeIdent_word {name tbl : String} (h : sanitizeIdent name = Except.ok tbl) :
    ∀ c ∈ tbl.data, isWordChar c = true := by
  intro c hc
  rw [sanitizeIdent_ok_data h] at hc
  exact List.of_mem_filter hc

theorem sanitizeIdent_no_semi {name tbl : String} (h : sanitizeIdent name = Except.ok tbl) :
    ';' ∉ tbl.data := by
  intro hc
  exact absurd (sanitizeIdent_word h _ hc) (by decide)

theorem sanitizeIdent_of_word {name : String} (h1 : name.data ≠ [])
    (h2 : ∀ c ∈ name.data, isWordChar c = true) : sanitizeIdent name = Except.ok name := by
  unfold sanitizeIdent
  rw [List.filter_eq_self.mpr h2]
  simp [h1, str_mk_data]

theorem sanitizeIdent_idem {name tbl : String} (h : sanitizeIdent name = Except.ok tbl) :
    sanitizeIdent tbl = Except.ok tbl := by
  refine sanitizeIdent_of_word ?_ (sanitizeIdent_word h)
  intro hnil
  have hdata := sanitizeIdent_ok_data h
  unfold sanitizeIdent at h
  split at h
  · exact absurd h (by simp)
  · rename_i hne
    rw [← hdata, hnil] at hne
    simp at hne

theorem buildFilters_ok {allowed : List String} :
    ∀ (fs : List (String × Val)) (i : Nat) (parts : List String) (ps : List (String × Val)),
    buildFilters allowed i fs = Except.ok (parts, ps) →
    parts.length = fs.length
      ∧ ps.map Prod.fst = (List.range fs.length).map (fun j => phName (i + j))
      ∧ (∀ part ∈ parts, ';' ∉ part.data) := by
  intro fs
  induction fs with
  | nil =>
    intro i parts ps h
    simp only [buildFilters] at h
    obtain ⟨h1, h2⟩ := Prod.mk.injEq _ _ _ _ ▸ Except.ok.inj h
    simp [← h1, ← h2]
  | cons kv rest ih =>
    intro i parts ps h
    obtain ⟨k, v⟩ := kv
    simp only [buildFilters] at h
    split at h
    · exact absurd h (by simp)
    · rename_i key hkey
      split at h
      · exact absurd h (by simp)
      · split at h
        · exact absurd h (by simp)
        · rename_i out parts2 ps2 hrest
          obtain ⟨h1, h2⟩ := Prod.mk.injEq _ _ _ _ ▸ Except.ok.inj h
          obtain ⟨hl, hk, hsemi⟩ := ih (i + 1) parts2 ps2 hrest
          refine ⟨?_, ?_, ?_⟩
          · simp [← h1, hl]
          · rw [← h2, List.map_cons, hk]
            simp only [List.length_cons, List.range_succ_eq_map, List.map_cons, List.map_map]
            refine congrArg₂ List.cons (congrArg phName (by omega)) (List.map_congr_left ?_)
            intro j _
            simp only [Function.comp_apply]
            exact congrArg phName (by omega)
          · intro part hp
            rw [← h1] at hp
            rcases List.mem_cons.mp hp with hp | hp
            · subst hp
              intro hc
              have hc2 : ';' ∈ (("\"".data ++ key.data) ++ "\" = :".data) ++ (phName i).data := hc
              rcases List.mem_append.mp hc2 with h3 | h3
              · rcases List.mem_append.mp h3 with h4 | h4
                · rcases List.mem_append.mp h4 with h5 | h5
                  · exact absurd h5 (by decide)
                  · exact sanitizeIdent_no_semi hkey h5
                · exact absurd h4 (by decide)
              · exact phName_no_semi i h3
            · exact hsemi part hp

theorem funcMsg_ne : ∀ f ∈ dangerousFuncs, ("Dangerous function " ++ f ++ " not allowed")
    ≠ msgDangerousOps := by
  decide

theorem limitMsg_ne (v m : Nat) :
    ("LIMIT value " ++ natRepr v ++ " exceeds maximum " ++ natRepr m) ≠ msgDangerousOps := by
  intro h
  have h3 : msgDangerousOps.data.head? = some 'L' := by
    rw [← h]; rfl
  exact absurd h3 (by decide)

theorem str_data_append (s t : String) : (s ++ t).data = s.data ++ t.data := rfl

theorem phName_ne_limit (i : Nat) : phName i ≠ "_limit" := by
  intro h
  have hh : (phName i).data.head? = some 'p' := rfl
  rw [h] at hh
  exact absurd hh (by decide)

theorem phName_ne_offset (i : Nat) : phName i ≠ "_offset" := by
  intro h
  have hh : (phName i).data.head? = some 'p' := rfl
  rw [h] at hh
  exact absurd hh (by decide)

theorem buildSelectSql_ok {store : String → Except String (List String)} {cache : Cache}
    {table : String} {columns : List String} {filters : List (String × Val)}
    {limit offset : Int} {sql : String} {params : List (String × Val)}
    (hb : buildSelectSql store cache table columns filters limit offset
      = Except.ok (sql, params)) :
    ∃ tbl allowed rest parts ps,
      sanitizeIdent table = Except.ok tbl
        ∧ getTableColumns store cache tbl = Except.ok (allowed, rest)
        ∧ buildFilters allowed 0 filters = Except.ok (parts, ps)
        ∧ sql = "SELECT " ++ joinSep ", " (columns.map (fun c => "\"" ++ c ++ "\""))
            ++ " FROM \"" ++ tbl ++ "\""
            ++ (if parts.isEmpty then "" else " WHERE " ++ joinSep " AND " parts)
            ++ " LIMIT :_limit OFFSET :_offset;"
        ∧ params = ps ++ [("_limit", Val.vInt limit), ("_offset", Val.vInt offset)] := by
  simp only [buildSelectSql] at hb
  split at hb
  · exact absurd hb (by simp)
  split at hb
  · exact absurd hb (by simp)
  rename_i tbl htbl
  split at hb
  · exact absurd hb (by simp)
  rename_i pair allowed rest hget
  split at hb
  · exact absurd hb (by simp)
  rename_i pair2 parts ps hfil
  obtain ⟨h1, h2⟩ := Prod.mk.injEq _ _ _ _ ▸ Except.ok.inj hb
  exact ⟨tbl, allowed, rest, parts, ps, htbl, hget, hfil, h1.symm, h2.symm⟩

theorem count_semi_zero {l : List Char} (h : ';' ∉ l) : l.count ';' = 0 :=
  List.count_eq_zero.mpr h

/-! Claim theorems. -/

/-- C2, counterexample: the statement `SELECT 1; SELECT 2` contains a `;` yet
`validate_sql_syntax` accepts it, so the validator does not reject every
statement containing a `;`. -/
theorem c2_counterexample :
    validateSql svcDefault "SELECT 1; SELECT 2" = ⟨true, none, []⟩
      ∧ ';' ∈ "SELECT 1; SELECT 2".data := by
  decide

/-- C2, amended: the validator has no blanket `;` rejection; an accepted
statement merely never contains a `;` followed by one of the injection-pattern
keywords, while both spec examples behave as stated (`SELECT 1; DROP TABLE x`
is rejected through the dangerous-keyword check and `SELECT 1` is accepted)
and `SELECT 1; SELECT 2` is accepted despite its `;`. -/
theorem c2_semicolon_policy :
    (∀ svc sql, (validateSql svc sql).is_valid = true →
        semiDanger (pyUpper (pyStrip sql.data)) = false)
      ∧ (validateSql svcDefault "SELECT 1; SELECT 2").is_valid = true
      ∧ (validateSql svcDefault "SELECT 1; DROP TABLE x").is_valid = false
      ∧ (validateSql svcDefault "SELECT 1").is_valid = true := by
  refine ⟨?_, by decide, by decide, by decide⟩
  intro svc sql h
  simp only [validateSql] at h
  split at h
  · simp at h
  split at h
  · simp at h
  split at h
  · simp at h
  split at h
  · simp at h
  rename_i hc
  simp only [Bool.or_eq_true, not_or] at hc
  simp only [Bool.not_eq_true] at hc
  exact hc.1.1.1.1.1

/-- C2, witness for the amended theorem at the concrete input `SELECT 1`. -/
theorem c2_witness : semiDanger (pyUpper (pyStrip "SELECT 1".data)) = false :=
  c2_semicolon_policy.1 svcDefault "SELECT 1" (by decide)

/-- C3, counterexample: the filter key `a;b` does not match
`^[A-Za-z_][A-Za-z0-9_]*$`, yet the builder does not raise — `_sanitize_ident`
silently rewrites it to `ab` and the built statement filters on `"ab"`. -/
theorem c3_counterexample :
    sanitizeIdent "a;b" = Except.ok "ab"
      ∧ buildSelectSql (fun t => if t = "t" then Except.ok ["ab"] else Except.ok [])
          [] "t" ["ab"] [("a;b", Val.vStr "x")] 10 0
        = Except.ok ("SELECT \"ab\" FROM \"t\" WHERE \"ab\" = :p0 LIMIT :_limit OFFSET :_offset;",
          [("p0", Val.vStr "x"), ("_limit", Val.vInt 10), ("_offset", Val.vInt 0)]) :=
  ⟨rfl, rfl⟩

/-- C3, amended: `_sanitize_ident` passes a nonempty all-word-character
identifier through unchanged, silently transforms any identifier that mixes
word and non-word characters into a different identifier instead of raising,
and raises only when no word character remains. -/
theorem c3_sanitizer_behavior (name : String) :
    (name.data ≠ [] → (∀ c ∈ name.data, isWordChar c = true) →
        sanitizeIdent name = Except.ok name)
      ∧ ((∃ c ∈ name.data, isWordChar c = false) → (∃ c ∈ name.data, isWordChar c = true) →
          ∃ r, sanitizeIdent name = Except.ok r ∧ r ≠ name)
      ∧ ((∀ c ∈ name.data, isWordChar c = false) →
          sanitizeIdent name = Except.error "invalid identifier") := by
  refine ⟨fun h1 h2 => sanitizeIdent_of_word h1 h2, fun hbad hgood => ?_, fun hall => ?_⟩
  · obtain ⟨c, hc, hw⟩ := hgood
    have hmem : c ∈ name.data.filter isWordChar := List.mem_filter.mpr ⟨hc, hw⟩
    have hnil : name.data.filter isWordChar ≠ [] := by
      intro h0
      rw [h0] at hmem
      simp at hmem
    have hlen : (name.data.filter isWordChar).length < name.data.length := by
      refine List.length_filter_lt_length_iff_exists.mpr ?_
      obtain ⟨c2, hc2, hw2⟩ := hbad
      exact ⟨c2, hc2, by simp [hw2]⟩
    refine ⟨⟨name.data.filter isWordChar⟩, ?_, ?_⟩
    · simp [sanitizeIdent, hnil]
    · intro heq
      have hdata := congrArg String.data heq
      simp only at hdata
      rw [hdata] at hlen
      omega
  · have h0 : name.data.filter isWordChar = [] :=
      List.filter_eq_nil_iff.mpr (by simpa using hall)
    simp [sanitizeIdent, h0]

/-- C3, witness for the amended theorem: the all-word identifier `ab` passes
through unchanged, the mixed identifier `a;b` is silently transformed, and the
all-bad identifier `;` raises. -/
theorem c3_witness :
    sanitizeIdent "ab" = Except.ok "ab"
      ∧ (∃ r, sanitizeIdent "a;b" = Except.ok r ∧ r ≠ "a;b")
      ∧ sanitizeIdent ";" = Except.error "invalid identifier" :=
  ⟨(c3_sanitizer_behavior "ab").1 (by decide) (by decide),
    (c3_sanitizer_behavior "a;b").2.1 ⟨';', by decide, by decide⟩ ⟨'a', by decide, by decide⟩,
    (c3_sanitizer_behavior ";").2.2 (by decide)⟩

/-- C4, counterexample: `SELECT updated_at FROM t` only contains `update`
inside the longer identifier `updated_at`, yet the banned-keyword check
rejects it; and `SELECT x FROM created_items` is rejected through `create`,
a word outside the claimed eight-word set. -/
theorem c4_counterexample :
    (validateSql svcDefault "SELECT updated_at FROM t").error_message = some msgDangerousOps
      ∧ (validateSql svcDefault "SELECT x FROM created_items").error_message
        = some msgDangerousOps := by
  decide

/-- C4, amended: for a nonempty statement within the length bound, the
banned-keyword branch fires exactly when one of the NINE words drop, delete,
update, insert, alter, create, truncate, grant, revoke occurs as a
case-insensitive SUBSTRING of the stripped statement (so occurrences inside
longer identifiers such as `updated_at` also reject). -/
theorem c4_keyword_check (svc : Limits) (sql : String)
    (h1 : (pyStrip sql.data).isEmpty = false)
    (h2 : sql.data.length ≤ svc.maxQueryLength) :
    (validateSql svc sql).error_message = some msgDangerousOps
      ↔ dangerousKeywords.any
          (fun k => containsSub (pyUpper (pyStrip sql.data)) k.data) = true := by
  have h2' : ¬(sql.data.length > svc.maxQueryLength) := by omega
  constructor
  · intro h
    by_contra hno
    simp only [Bool.not_eq_true] at hno
    simp only [validateSql, h1, h2', hno] at h
    simp only [Bool.false_eq_true, if_false] at h
    split at h
    · simp only [Option.some.injEq] at h
      exact absurd h (by decide)
    split at h
    · simp only [Option.some.injEq] at h
      exact absurd h (by decide)
    split at h
    · simp only [Option.some.injEq] at h
      exact absurd h (by decide)
    split at h
    · simp only [Option.some.injEq] at h
      exact absurd h (by decide)
    split at h
    · rename_i f hf
      have hmem := List.mem_of_find?_eq_some hf
      simp only [Option.some.injEq] at h
      exact funcMsg_ne f hmem h
    split at h
    · rename_i v hfl
      split at h
      · simp only [Option.some.injEq] at h
        exact limitMsg_ne v svc.maxLimit h
      · simp at h
    · simp at h
  · intro hany
    simp only [validateSql, h1, h2', hany]
    simp

/-- C4, witness for the amended theorem at the concrete input
`SELECT updated_at FROM t`. -/
theorem c4_witness :
    (validateSql svcDefault "SELECT updated_at FROM t").error_message = some msgDangerousOps
      ↔ dangerousKeywords.any
          (fun k => containsSub (pyUpper (pyStrip "SELECT updated_at FROM t".data)) k.data)
          = true :=
  c4_keyword_check svcDefault "SELECT updated_at FROM t" (by decide) (by decide)

/-- C5, counterexample: at the CATEGORY stage, with candidates
`[{id: 1, name: natural}]` presented, a response selecting the out-of-range id
99 is accepted by `parse_l1_response` and carried into the L2 lookup by
`route`; at the CARD stage, with candidates `[{id: 2, name: waters}]`
presented, a response selecting the out-of-range id 42 is likewise accepted by
`parse_l2_response` and carried into the L3 lookup; no
`MalformedSelectionError` is raised at either stage (no such error exists in
the code). -/
theorem c5_counterexample :
    parseL1Response
        [("l1_selected", Json.jArr [Json.jObj [("id", Json.jInt 99), ("name", Json.jStr "x")]]),
          ("reasons", Json.jArr [])]
      = Except.ok
        [("l1_selected", Json.jArr [Json.jObj [("id", Json.jInt 99), ("name", Json.jStr "x")]]),
          ("reasons", Json.jArr [])]
      ∧ routeStep1Then2 (fun i => if i = 1 then ["card-natural"] else [])
          [("l1_selected", Json.jArr [Json.jObj [("id", Json.jInt 99), ("name", Json.jStr "x")]]),
            ("reasons", Json.jArr [])]
        = Except.ok []
      ∧ (99 : Int) ∉ [(1 : Int)]
      ∧ parseL2Response
          [("l2_selected", Json.jArr [Json.jObj [("id", Json.jInt 42), ("name", Json.jStr "y")]]),
            ("reasons", Json.jArr [])]
        = Except.ok
          [("l2_selected", Json.jArr [Json.jObj [("id", Json.jInt 42), ("name", Json.jStr "y")]]),
            ("reasons", Json.jArr [])]
      ∧ routeStep2Then3 (fun i => if i = 2 then ["ne_10m_lakes"] else [])
          [("l2_selected", Json.jArr [Json.jObj [("id", Json.jInt 42), ("name", Json.jStr "y")]]),
            ("reasons", Json.jArr [])]
        = Except.ok []
      ∧ (42 : Int) ∉ [(2 : Int)] :=
  ⟨rfl, rfl, by decide, rfl, rfl, by decide⟩

/-- C5, amended: at the CATEGORY and CARD stages the only validation is key
presence — `parse_l1_response` (resp. `parse_l2_response`) accepts a response
exactly when the keys `l1_selected` (resp. `l2_selected`) and `reasons` exist,
independently of the candidate set — and whenever id extraction succeeds the
resolver proceeds to fetch L2 cards (resp. L3 tables) for every selected id
whatever its value, raising nothing. -/
theorem c5_no_range_check :
    (∀ resp : List (String × Json), parseL1Response resp = Except.ok resp
        ↔ (resp.any (fun kv => kv.1 = "l1_selected")
            && resp.any (fun kv => kv.1 = "reasons")) = true)
      ∧ (∀ resp : List (String × Json), parseL2Response resp = Except.ok resp
          ↔ (resp.any (fun kv => kv.1 = "l2_selected")
              && resp.any (fun kv => kv.1 = "reasons")) = true)
      ∧ (∀ (catalog : Int → List String) (d1 : List (String × Json)) (ids : List Int),
          extractSelectedIds d1 "l1_selected" = Except.ok ids →
          routeStep1Then2 catalog d1 = Except.ok (ids.flatMap catalog))
      ∧ (∀ (catalog : Int → List String) (d2 : List (String × Json)) (ids : List Int),
          extractSelectedIds d2 "l2_selected" = Except.ok ids →
          routeStep2Then3 catalog d2 = Except.ok (ids.flatMap catalog)) := by
  refine ⟨?_, ?_, ?_, ?_⟩
  · intro resp
    unfold parseL1Response
    split
    · rename_i hc
      simp [hc]
    · rename_i hc
      simp [hc]
  · intro resp
    unfold parseL2Response
    split
    · rename_i hc
      simp [hc]
    · rename_i hc
      simp [hc]
  · intro catalog d1 ids h
    unfold routeStep1Then2
    rw [h]
  · intro catalog d2 ids h
    unfold routeStep2Then3
    rw [h]

/-- C5, witness for the amended theorem at concrete out-of-range responses,
one per stage. -/
theorem c5_witness :
    routeStep1Then2 (fun i => if i = 1 then ["card-natural"] else [])
        [("l1_selected", Json.jArr [Json.jObj [("id", Json.jInt 99)]])]
      = Except.ok ([(99 : Int)].flatMap (fun i => if i = 1 then ["card-natural"] else []))
      ∧ routeStep2Then3 (fun i => if i = 2 then ["ne_10m_lakes"] else [])
          [("l2_selected", Json.jArr [Json.jObj [("id", Json.jInt 42)]])]
        = Except.ok ([(42 : Int)].flatMap (fun i => if i = 2 then ["ne_10m_lakes"] else [])) :=
  ⟨c5_no_range_check.2.2.1 (fun i => if i = 1 then ["card-natural"] else [])
      [("l1_selected", Json.jArr [Json.jObj [("id", Json.jInt 99)]])] [99] rfl,
    c5_no_range_check.2.2.2 (fun i => if i = 2 then ["ne_10m_lakes"] else [])
      [("l2_selected", Json.jArr [Json.jObj [("id", Json.jInt 42)]])] [42] rfl⟩

/-- C1, counterexample: a validated statement whose first execution fails is
not retried — `execute_sql` submits it to the store exactly once and returns
the failure, even though the wildcard rewrite of the statement would have
succeeded against the same store. -/
theorem c1_counterexample :
    executeSql svcDefault demoStore "SELECT \"bad_col\" FROM \"t\" LIMIT 5"
      = (⟨false, [], some "column does not exist"⟩, ["SELECT \"bad_col\" FROM \"t\" LIMIT 5"])
      ∧ demoStore "SELECT * FROM \"t\" LIMIT 5" = Except.ok [[("name", Val.vStr "x")]] :=
  ⟨rfl, rfl⟩

/-- C1, amended: the executor has no fallback path — the store is consulted at
most once per call, a store failure after successful validation is surfaced
directly as an unsuccessful result with the statement submitted exactly once,
and every success envelope produced by the `/query` endpoint carries
`is_fallback = false`. -/
theorem c1_no_fallback :
    (∀ svc store sql, (executeSql svc store sql).2.length ≤ 1)
      ∧ (∀ svc store sql e, (validateSql svc sql).is_valid = true →
          store sql = Except.error e →
          executeSql svc store sql = (⟨false, [], some e⟩, [sql]))
      ∧ (∀ swp reasons resu n out,
          geoReasonRespond swp reasons resu = Except.ok (n, out) → out.is_fallback = false) := by
  refine ⟨?_, ?_, ?_⟩
  · intro svc store sql
    simp only [executeSql]
    split
    · simp
    · split <;> simp
  · intro svc store sql e hv hs
    simp only [executeSql, hv, Bool.not_true, Bool.false_eq_true, if_false, hs]
  · intro swp reasons resu n out h
    unfold geoReasonRespond at h
    split at h
    · exact absurd h (by simp)
    · simp only [Except.ok.injEq, Prod.mk.injEq] at h
      rw [← h.2]

/-- C1, witness for the amended theorem: a failing store is consulted once and
the failure is surfaced without retry. -/
theorem c1_witness :
    executeSql svcDefault (fun _ => Except.error "boom") "SELECT 1"
      = (⟨false, [], some "boom"⟩, ["SELECT 1"]) :=
  c1_no_fallback.2.1 svcDefault (fun _ => Except.error "boom") "SELECT 1" "boom" (by decide) rfl

/-- C8, counterexample: when introspection cannot reach the store,
`get_table_columns` succeeds with the EMPTY column set and validation reports
the table as not found — no `SchemaUnavailableError` is raised (none exists). -/
theorem c8_counterexample :
    getTableColumns (fun _ => Except.error "connection refused") [] "t" = Except.ok ([], [])
      ∧ validateTableAndColumns (fun _ => Except.error "connection refused") [] "t" ["a"]
        = ⟨false, some (tableNotFoundMsg "t"), []⟩ :=
  ⟨rfl, rfl⟩

/-- C8, amended: when introspection fails for an uncached table, the exception
is swallowed — the column lookup returns the empty set and column validation
fails with the `not found or has no columns` message, indistinguishable from
an unknown table. -/
theorem c8_introspection_failure (store : String → Except String (List String))
    (cache : Cache) (table tbl err : String) (columns : List String)
    (htbl : sanitizeIdent table = Except.ok tbl)
    (hc : lookupCache cache tbl = none)
    (hs : store tbl = Except.error err) :
    getTableColumns store cache table = Except.ok ([], cache)
      ∧ validateTableAndColumns store cache table columns
        = ⟨false, some (tableNotFoundMsg tbl), []⟩ := by
  have hidem := sanitizeIdent_idem htbl
  have hget : getTableColumns store cache tbl = Except.ok ([], cache) := by
    simp only [getTableColumns, hidem, hc, hs]
  constructor
  · simp only [getTableColumns, htbl, hc, hs]
  · simp only [validateTableAndColumns, htbl, hget, List.isEmpty_nil, if_true]

/-- C8, witness for the amended theorem at a concrete unreachable store. -/
theorem c8_witness :
    getTableColumns (fun _ => Except.error "refused") [] "cities" = Except.ok ([], [])
      ∧ validateTableAndColumns (fun _ => Except.error "refused") [] "cities" ["name"]
        = ⟨false, some (tableNotFoundMsg "cities"), []⟩ :=
  c8_introspection_failure (fun _ => Except.error "refused") [] "cities" "cities" "refused"
    ["name"] rfl rfl rfl

/-- C10, counterexample: `SELECT a LIMIT 1 LIMIT 20000` contains the literal
clause `LIMIT 20000` whose value exceeds the default maximum 10000, yet the
validator accepts the statement — only the first `LIMIT <digits>` occurrence
is ever inspected. -/
theorem c10_counterexample :
    validateSql svcDefault "SELECT a LIMIT 1 LIMIT 20000" = ⟨true, none, []⟩
      ∧ containsSub (pyUpper (pyStrip "SELECT a LIMIT 1 LIMIT 20000".data))
        "LIMIT 20000".data = true := by
  decide

/-- C10, amended: the validator inspects only the LEFTMOST occurrence of
`LIMIT` followed by a literal digit run; whenever that first literal exceeds
the configured maximum the statement is rejected (the maximum is 10000 by
default and adjustable via `set_limits`), and a `LIMIT` bound through the
named parameter `:_limit` is never matched by this check. -/
theorem c10_limit_check :
    (∀ svc sql v, firstLimitLit (pyUpper (pyStrip sql.data)) = some v → v > svc.maxLimit →
        (validateSql svc sql).is_valid = false)
      ∧ (validateSql svcDefault
          "SELECT \"a\" FROM \"t\" LIMIT :_limit OFFSET :_offset;").is_valid = true
      ∧ firstLimitLit (pyUpper (pyStrip
          "SELECT \"a\" FROM \"t\" LIMIT :_limit OFFSET :_offset;".data)) = none
      ∧ (validateSql (setLimits 10000 50) "SELECT 1 LIMIT 60").is_valid = false := by
  refine ⟨?_, by decide, by decide, by decide⟩
  intro svc sql v h hv
  simp only [validateSql]
  split
  · rfl
  split
  · rfl
  split
  · rfl
  split
  · rfl
  split
  · rfl
  split
  · rfl
  split
  · rfl
  split
  · rfl
  rw [h]
  simp [hv]

/-- C10, witness for the amended theorem at the concrete input
`SELECT 1 LIMIT 20001`. -/
theorem c10_witness : (validateSql svcDefault "SELECT 1 LIMIT 20001").is_valid = false :=
  c10_limit_check.1 svcDefault "SELECT 1 LIMIT 20001" 20001 (by decide) (by decide)

/-- C6, counterexample: a successful build returns a statement terminated by
`;` — the claimed shape without a `;` character is wrong. -/
theorem c6_counterexample :
    buildSelectSql (fun t => if t = "t" then Except.ok ["a"] else Except.ok [])
        [] "t" ["a"] [] 100 0
      = Except.ok ("SELECT \"a\" FROM \"t\" LIMIT :_limit OFFSET :_offset;",
        [("_limit", Val.vInt 100), ("_offset", Val.vInt 0)])
      ∧ ';' ∈ "SELECT \"a\" FROM \"t\" LIMIT :_limit OFFSET :_offset;".data :=
  ⟨rfl, by decide⟩

/-- C6, amended: every successful build returns exactly the shape
`SELECT <cols> FROM "<table>" [WHERE <and-joined clauses>] LIMIT :_limit
OFFSET :_offset;` — terminated by a `;` — and, when the selected column names
contain no `;`, that trailing terminator is the only `;` in the statement. -/
theorem c6_sql_shape (store : String → Except String (List String)) (cache : Cache)
    (table : String) (columns : List String) (filters : List (String × Val))
    (limit offset : Int) (sql : String) (params : List (String × Val))
    (hb : buildSelectSql store cache table columns filters limit offset
      = Except.ok (sql, params))
    (hcols : ∀ c ∈ columns, ';' ∉ c.data) :
    ∃ tbl whereSql,
      sanitizeIdent table = Except.ok tbl
        ∧ (whereSql = "" ∨ ∃ parts, parts ≠ [] ∧ whereSql = " WHERE " ++ joinSep " AND " parts)
        ∧ sql = "SELECT " ++ joinSep ", " (columns.map (fun c => "\"" ++ c ++ "\""))
            ++ " FROM \"" ++ tbl ++ "\"" ++ whereSql ++ " LIMIT :_limit OFFSET :_offset;"
        ∧ sql.data.count ';' = 1 := by
  obtain ⟨tbl, allowed, rest, parts, ps, htbl, hget, hfil, hsql, hparams⟩ := buildSelectSql_ok hb
  obtain ⟨hlen, hkeys, hsemi⟩ := buildFilters_ok filters 0 parts ps hfil
  refine ⟨tbl, (if parts.isEmpty then "" else " WHERE " ++ joinSep " AND " parts), htbl, ?_,
    hsql, ?_⟩
  · by_cases hp : parts.isEmpty
    · left
      simp [hp]
    · right
      refine ⟨parts, ?_, by simp [hp]⟩
      intro h0
      rw [h0] at hp
      simp at hp
  · have hcolsSql : (joinSep ", " (columns.map (fun c => "\"" ++ c ++ "\""))).data.count ';'
        = 0 := by
      apply count_semi_zero
      intro hmem
      rcases joinSep_mem _ hmem with h | ⟨x, hx, hcx⟩
      · exact absurd h (by decide)
      · obtain ⟨c, hc, rfl⟩ := List.mem_map.mp hx
        have h2 : ';' ∈ ("\"".data ++ c.data) ++ "\"".data := hcx
        rcases List.mem_append.mp h2 with h3 | h3
        · rcases List.mem_append.mp h3 with h4 | h4
          · exact absurd h4 (by decide)
          · exact hcols c hc h4
        · exact absurd h3 (by decide)
    have htblc : tbl.data.count ';' = 0 := count_semi_zero (sanitizeIdent_no_semi htbl)
    have hwhere : (if parts.isEmpty then ""
        else " WHERE " ++ joinSep " AND " parts).data.count ';' = 0 := by
      split
      · rfl
      · apply count_semi_zero
        intro hmem
        have h2 : ';' ∈ " WHERE ".data ++ (joinSep " AND " parts).data := hmem
        rcases List.mem_append.mp h2 with h3 | h3
        · exact absurd h3 (by decide)
        · rcases joinSep_mem _ h3 with h4 | ⟨x, hx, hcx⟩
          · exact absurd h4 (by decide)
          · exact hsemi x hx hcx
    rw [hsql]
    simp only [str_data_append, List.count_append, hcolsSql, htblc, hwhere]
    decide

/-- C6, witness for the amended theorem at a concrete filterless build. -/
theorem c6_witness :
    ∃ tbl whereSql,
      sanitizeIdent "t" = Except.ok tbl
        ∧ (whereSql = "" ∨ ∃ parts, parts ≠ [] ∧ whereSql = " WHERE " ++ joinSep " AND " parts)
        ∧ "SELECT \"a\" FROM \"t\" LIMIT :_limit OFFSET :_offset;"
            = "SELECT " ++ joinSep ", " (["a"].map (fun c => "\"" ++ c ++ "\""))
              ++ " FROM \"" ++ tbl ++ "\"" ++ whereSql ++ " LIMIT :_limit OFFSET :_offset;"
        ∧ "SELECT \"a\" FROM \"t\" LIMIT :_limit OFFSET :_offset;".data.count ';' = 1 :=
  c6_sql_shape (fun t => if t = "t" then Except.ok ["a"] else Except.ok []) [] "t" ["a"] [] 100 0
    "SELECT \"a\" FROM \"t\" LIMIT :_limit OFFSET :_offset;"
    [("_limit", Val.vInt 100), ("_offset", Val.vInt 0)] rfl (by decide)

/-- C7, confirmed: a successful build emits one AND-joined equality clause per
filter entry, binds the distinct named parameters `p0, p1, ...` in order, and
returns a parameter list of size `len(filters) + 2` whose extra entries are
`_limit` and `_offset`; with no filters the statement carries no WHERE
segment. -/
theorem c7_filter_params (store : String → Except String (List String)) (cache : Cache)
    (table : String) (columns : List String) (filters : List (String × Val))
    (limit offset : Int) (sql : String) (params : List (String × Val))
    (hb : buildSelectSql store cache table columns filters limit offset
      = Except.ok (sql, params)) :
    ∃ tbl parts,
      sanitizeIdent table = Except.ok tbl
        ∧ parts.length = filters.length
        ∧ sql = "SELECT " ++ joinSep ", " (columns.map (fun c => "\"" ++ c ++ "\""))
            ++ " FROM \"" ++ tbl ++ "\""
            ++ (if parts.isEmpty then "" else " WHERE " ++ joinSep " AND " parts)
            ++ " LIMIT :_limit OFFSET :_offset;"
        ∧ params.map Prod.fst = (List.range filters.length).map phName ++ ["_limit", "_offset"]
        ∧ (params.map Prod.fst).Nodup
        ∧ params.length = filters.length + 2
        ∧ (filters = [] → sql = "SELECT "
            ++ joinSep ", " (columns.map (fun c => "\"" ++ c ++ "\""))
            ++ " FROM \"" ++ tbl ++ "\"" ++ " LIMIT :_limit OFFSET :_offset;") := by
  obtain ⟨tbl, allowed, rest, parts, ps, htbl, hget, hfil, hsql, hparams⟩ := buildSelectSql_ok hb
  obtain ⟨hlen, hkeys, hsemi⟩ := buildFilters_ok filters 0 parts ps hfil
  have hkeys0 : ps.map Prod.fst = (List.range filters.length).map phName := by
    rw [hkeys]
    exact List.map_congr_left (fun j _ => congrArg phName (by omega))
  have hpslen : ps.length = filters.length := by
    have h0 := congrArg List.length hkeys0
    simpa using h0
  have hmapfst : params.map Prod.fst
      = (List.range filters.length).map phName ++ ["_limit", "_offset"] := by
    rw [hparams, List.map_append, hkeys0]
    rfl
  refine ⟨tbl, parts, htbl, hlen, hsql, hmapfst, ?_, ?_, ?_⟩
  · rw [hmapfst]
    refine List.Nodup.append ?_ (by decide) ?_
    · exact (List.nodup_range _).map (fun a b hab => phName_inj hab)
    · intro x hx hy
      obtain ⟨j, _, rfl⟩ := List.mem_map.mp hx
      simp only [List.mem_cons, List.mem_singleton] at hy
      rcases hy with h | h | h
      · exact phName_ne_limit j h
      · exact phName_ne_offset j h
      · simp at h
  · rw [hparams]
    simp [hpslen]
  · intro hnil
    have hp : parts = [] := List.length_eq_zero.mp (by rw [hlen, hnil]; rfl)
    rw [hsql, hp]
    apply str_ext
    simp [str_data_append]

/-- C7, witness at a concrete two-filter build. -/
theorem c7_witness :
    ∃ tbl parts,
      sanitizeIdent "t" = Except.ok tbl
        ∧ parts.length = ([("a", Val.vStr "x"), ("b", Val.vInt 2)] : List (String × Val)).length
        ∧ "SELECT \"a\", \"b\" FROM \"t\" WHERE \"a\" = :p0 AND \"b\" = :p1 LIMIT :_limit OFFSET :_offset;"
            = "SELECT " ++ joinSep ", " (["a", "b"].map (fun c => "\"" ++ c ++ "\""))
              ++ " FROM \"" ++ tbl ++ "\""
              ++ (if parts.isEmpty then "" else " WHERE " ++ joinSep " AND " parts)
              ++ " LIMIT :_limit OFFSET :_offset;"
        ∧ ([("p0", Val.vStr "x"), ("p1", Val.vInt 2), ("_limit", Val.vInt 100),
            ("_offset", Val.vInt 0)] : List (String × Val)).map Prod.fst
            = (List.range ([("a", Val.vStr "x"), ("b", Val.vInt 2)]
                : List (String × Val)).length).map phName ++ ["_limit", "_offset"]
        ∧ (([("p0", Val.vStr "x"), ("p1", Val.vInt 2), ("_limit", Val.vInt 100),
            ("_offset", Val.vInt 0)] : List (String × Val)).map Prod.fst).Nodup
        ∧ ([("p0", Val.vStr "x"), ("p1", Val.vInt 2), ("_limit", Val.vInt 100),
            ("_offset", Val.vInt 0)] : List (String × Val)).length
            = ([("a", Val.vStr "x"), ("b", Val.vInt 2)] : List (String × Val)).length + 2
        ∧ (([("a", Val.vStr "x"), ("b", Val.vInt 2)] : List (String × Val)) = [] →
            "SELECT \"a\", \"b\" FROM \"t\" WHERE \"a\" = :p0 AND \"b\" = :p1 LIMIT :_limit OFFSET :_offset;"
              = "SELECT " ++ joinSep ", " (["a", "b"].map (fun c => "\"" ++ c ++ "\""))
                ++ " FROM \"" ++ tbl ++ "\"" ++ " LIMIT :_limit OFFSET :_offset;") :=
  c7_filter_params (fun t => if t = "t" then Except.ok ["a", "b"] else Except.ok []) [] "t"
    ["a", "b"] [("a", Val.vStr "x"), ("b", Val.vInt 2)] 100 0
    "SELECT \"a\", \"b\" FROM \"t\" WHERE \"a\" = :p0 AND \"b\" = :p1 LIMIT :_limit OFFSET :_offset;"
    [("p0", Val.vStr "x"), ("p1", Val.vInt 2), ("_limit", Val.vInt 100), ("_offset", Val.vInt 0)]
    rfl

end Capstone
